import Mathlib

/-!
Verification of the fetch-media content-negotiation wrapper.

The development shallowly embeds the request/response dispatch engine of
src/index.ts together with the error taxonomy (src/Problem.ts,
src/StructuredErrors.ts, src/TextError.ts, src/JsonError.ts,
src/MediaTypeUnsupported.ts, src/NoRequestContentType.ts,
src/NoResponseContentType.ts) and the result container
(src/MediaResponse.ts).  JavaScript strings are Lean strings, JSON
values are a small inductive type, the single transport round trip is a
parameter, and promise rejection is an explicit outcome constructor.
-/

namespace FetchMedia

/-! ## JavaScript string primitives (startsWith / includes / endsWith) -/

/-- Model of JavaScript `a.startsWith(p)` on character lists. -/
def listStartsWith : List Char → List Char → Bool
  | _, [] => true
  | [], _ :: _ => false
  | c :: cs, p :: ps => c = p && listStartsWith cs ps

/-- Model of JavaScript `String.prototype.startsWith`. -/
def strStartsWith (s p : String) : Bool :=
  listStartsWith s.data p.data

/-- Substring containment on character lists: some suffix starts with `p`. -/
def listIncludes : List Char → List Char → Bool
  | l, p =>
    match l with
    | [] => listStartsWith [] p
    | _ :: rest => listStartsWith l p || listIncludes rest p

/-- Model of JavaScript `String.prototype.includes`. -/
def strIncludes (s p : String) : Bool :=
  listIncludes s.data p.data

/-- Model of JavaScript `String.prototype.endsWith` (used only to render
the wording of the specification for comparison with the source). -/
def strEndsWith (s p : String) : Bool :=
  listStartsWith s.data.reverse p.data.reverse

/-! ## JSON values -/

/-- Parsed JSON values, as produced by `response.json()`. -/
inductive Json where
  | null
  | bool (b : Bool)
  | num (n : Int)
  | str (s : String)
  | arr (xs : List Json)
  | obj (fields : List (String × Json))

/-- Property lookup on a JSON object; `none` models `undefined` (missing
property, or property access on a non-object primitive / array, which in
JavaScript yields `undefined` for the names used here). -/
def jsonGet : Json → String → Option Json
  | .obj fields, k => lookupField fields k
  | _, _ => none
where
  lookupField : List (String × Json) → String → Option Json
    | [], _ => none
    | (k₀, v) :: rest, k => if k₀ = k then some v else lookupField rest k

/-- JavaScript truthiness of a parsed JSON value. -/
def jsonTruthy : Json → Bool
  | .null => false
  | .bool b => b
  | .num n => n ≠ 0
  | .str s => s ≠ ""
  | .arr _ => true
  | .obj _ => true

mutual
/-- JavaScript `String(x)` coercion for parsed JSON values
(arrays stringify as their elements joined by commas, objects as
`[object Object]`). -/
def jsToString : Json → String
  | .null => "null"
  | .bool b => if b then "true" else "false"
  | .num n => toString n
  | .str s => s
  | .arr xs => jsArrToString xs
  | .obj _ => "[object Object]"

/-- `Array.prototype.toString`, i.e. `join(",")` with `null` elements
rendered as the empty string. -/
def jsArrToString : List Json → String
  | [] => ""
  | [.null] => ""
  | [x] => jsToString x
  | .null :: y :: rest => "," ++ jsArrToString (y :: rest)
  | x :: y :: rest => jsToString x ++ "," ++ jsArrToString (y :: rest)
end

/-- How `Array.prototype.join` renders one element: `undefined` (here
`none`) and `null` become the empty string, anything else is coerced
with `String(x)`. -/
def jsJoinElem : Option Json → String
  | none => ""
  | some .null => ""
  | some j => jsToString j

/-! ## JSON serialization (`JSON.stringify`) -/

/-- One hexadecimal digit. -/
def hexDigit (n : Nat) : Char :=
  if n < 10 then Char.ofNat (48 + n) else Char.ofNat (87 + n)

/-- Escape a character inside a JSON string literal, following
`JSON.stringify`: quote, backslash and the named control characters get
two-character escapes; other control characters get a u-escape. -/
def jsonEscChar (c : Char) : String :=
  if c = '\x22' then "\\\x22"
  else if c = '\\' then "\\\\"
  else if c = '\n' then "\\n"
  else if c = '\t' then "\\t"
  else if c = '\x0d' then "\\r"
  else if c = '\x08' then "\\b"
  else if c = '\x0c' then "\\f"
  else if c.toNat < 32 then
    "\\u00" ++ String.mk [hexDigit (c.toNat / 16), hexDigit (c.toNat % 16)]
  else String.mk [c]

/-- A JSON string literal with its quotes. -/
def jsonQuote (s : String) : String :=
  "\x22" ++ String.join (s.data.map jsonEscChar) ++ "\x22"

mutual
/-- `JSON.stringify(v, undefined, gap)`: `gap = ""` is the compact form
(`JSON.stringify(v)`), a non-empty `gap` is the pretty-printed form, with
`ind` the accumulated indentation of the enclosing value. -/
def jsonSer (gap ind : String) : Json → String
  | .null => "null"
  | .bool b => if b then "true" else "false"
  | .num n => toString n
  | .str s => jsonQuote s
  | .arr xs =>
    match xs with
    | [] => "[]"
    | _ :: _ =>
      if gap = "" then "[" ++ jsonSerItems gap ind xs ++ "]"
      else
        "[\n" ++ ind ++ gap ++ jsonSerItems gap (ind ++ gap) xs ++ "\n" ++ ind ++ "]"
  | .obj fs =>
    match fs with
    | [] => "\x7b\x7d"
    | _ :: _ =>
      if gap = "" then "\x7b" ++ jsonSerFields gap ind fs ++ "\x7d"
      else
        "\x7b\n" ++ ind ++ gap ++ jsonSerFields gap (ind ++ gap) fs ++ "\n" ++ ind ++ "\x7d"

/-- Array items, comma separated (with newline plus indentation when a
gap is active). -/
def jsonSerItems (gap ind : String) : List Json → String
  | [] => ""
  | [x] => jsonSer gap ind x
  | x :: y :: rest =>
    jsonSer gap ind x ++ (if gap = "" then "," else ",\n" ++ ind) ++
      jsonSerItems gap ind (y :: rest)

/-- Object members, comma separated, each rendered as quoted key, colon
(with a space after it when a gap is active) and value. -/
def jsonSerFields (gap ind : String) : List (String × Json) → String
  | [] => ""
  | [(k, v)] => jsonQuote k ++ (if gap = "" then ":" else ": ") ++ jsonSer gap ind v
  | (k, v) :: f :: rest =>
    jsonQuote k ++ (if gap = "" then ":" else ": ") ++ jsonSer gap ind v ++
      (if gap = "" then "," else ",\n" ++ ind) ++ jsonSerFields gap ind (f :: rest)
end

/-- Compact serialization, `JSON.stringify(v)`. -/
def jsonStringify (v : Json) : String := jsonSer "" "" v

/-- Pretty serialization, `JSON.stringify(v, undefined, 2)`. -/
def jsonStringifyPretty (v : Json) : String := jsonSer "  " "" v

/-! ## Error-message extraction (the getError functions of the taxonomy
classes).  A `none` result models a thrown `TypeError` (property access
or array methods on `null` / non-arrays), which inside the classifier
escapes as a promise rejection. -/

/-- `Problem.getError` from src/Problem.ts:
`[data.title, data.detail].join('\n')`; property access on `null`
throws. -/
def problemMessage : Json → Option String
  | .null => none
  | data =>
    some (jsJoinElem (jsonGet data "title") ++ "\n" ++ jsJoinElem (jsonGet data "detail"))

/-- The element-wise extraction of `StructuredErrors.getError`:
destructuring `{ message }` of a `null` element throws, otherwise the
element's `message` property is rendered by `join`. -/
def structuredElems : List Json → Option (List String)
  | [] => some []
  | .null :: _ => none
  | e :: rest => (structuredElems rest).map (jsJoinElem (jsonGet e "message") :: ·)

/-- `StructuredErrors.getError` from src/StructuredErrors.ts:
`data['errors'].map(({message}) => message).join(', ')`; `.map` on a
missing or non-array `errors` property throws, as does property access
on a `null` body. -/
def structuredMessage : Json → Option String
  | .null => none
  | data =>
    match jsonGet data "errors" with
    | some (.arr xs) => (structuredElems xs).map (String.intercalate ", ")
    | _ => none

/-- `Object.keys(x)` joined by commas, as rendered inside a template
literal (object keys in insertion order; the indices of a string; no own
keys for the other primitives). -/
def jsObjectKeysStr : Json → String
  | .obj fields => String.intercalate "," (fields.map (·.1))
  | .str s => String.intercalate "," ((List.range s.length).map toString)
  | _ => ""

/-- `JsonError.getError` from src/JsonError.ts: the first truthy value
among the `message`, `error`, `details`, `title` and `errors` properties;
arrays are joined with a comma and space, a missing result produces the
diagnostic sentence (with its typo) listing the keys that were present;
property access on a `null` body throws. -/
def jsonErrorMessage : Json → Option String
  | .null => none
  | data =>
    let pick (k : String) (next : Option Json) : Option Json :=
      match jsonGet data k with
      | some v => if jsonTruthy v then some v else next
      | none => next
    match pick "message" (pick "error" (pick "details" (pick "title" (pick "errors" none)))) with
    | none =>
      some ("Tried to extract error from JSON, looking for 'message', 'error', " ++
        "'details', 'title' and 'errors, buy found " ++ jsObjectKeysStr data ++ ".")
    | some (.arr xs) => some (String.intercalate ", " (xs.map (jsJoinElem ∘ some)))
    | some v => some (jsToString v)

/-- `TextError.getError` from src/TextError.ts. -/
def textErrorMessage (status : Nat) (url : String) (data : String) : String :=
  "[" ++ toString status ++ "] " ++ url ++
    "\n    Expected a structured error or problem, but got text:\n    " ++ data

/-! ## Exported media-type constants of src/index.ts -/

def MEDIA_PROBLEM : String := "application/problem+json"
def MEDIA_JSON_SUFFIX : String := "+json"
def MEDIA_JSON : String := "application/json"
def MEDIA_GENERIC_BIN : String := "application/octet-stream"
def MEDIA_TEXT_GROUP : String := "text/"
def MEDIA_IMAGE_GROUP : String := "image/"
def MEDIA_AUDIO_GROUP : String := "audio/"
def MEDIA_VIDEO_GROUP : String := "video/"
def MEDIA_FORM_DATA : String := "multipart/form-data"
def MEDIA_FORM_URL_ENCODED : String := "application/x-www-form-urlencoded"
def ACCEPT_PROBLEM : String := MEDIA_PROBLEM ++ "; q=0.1"

/-! ## The two classification regular expressions.

`CUSTOM_ERROR  = application\/vnd\.(.+?)\.errors(?:\.v[1-9][0-9]*)\+json`
`CUSTOM_PROBLEM = application\/vnd\.(.+?)\.problem(?:\.v[1-9][0-9]*)?\+json`

`RegExp.prototype.test` looks for a match anywhere in the string, so the
embedding checks every starting position, and at each one every possible
extent of the lazy middle group (`.` does not match a newline). -/

def digit19 (c : Char) : Bool := '1' ≤ c && c ≤ '9'
def digit09 (c : Char) : Bool := '0' ≤ c && c ≤ '9'

/-- After `\.v` and its first digit: the remaining `[0-9]*` digits
followed by the literal `+json`. -/
def digitsThenPlusJson : List Char → Bool
  | [] => false
  | c :: rest =>
    if digit09 c then digitsThenPlusJson rest
    else listStartsWith (c :: rest) "+json".data

/-- The version group `\.v[1-9][0-9]*` followed by `\+json`. -/
def versionPlusJson : List Char → Bool
  | '.' :: 'v' :: c :: rest => digit19 c && digitsThenPlusJson rest
  | _ => false

/-- The tail of CUSTOM_ERROR after the middle group:
`\.errors(?:\.v[1-9][0-9]*)\+json` (version mandatory). -/
def errorsTail (l : List Char) : Bool :=
  listStartsWith l ".errors".data && versionPlusJson (l.drop 7)

/-- The tail of CUSTOM_PROBLEM after the middle group:
`\.problem(?:\.v[1-9][0-9]*)?\+json` (version optional). -/
def problemTail (l : List Char) : Bool :=
  listStartsWith l ".problem".data &&
    (listStartsWith (l.drop 8) "+json".data || versionPlusJson (l.drop 8))

/-- Try every extent of the lazy `(.+?)` group (at least one non-newline
character) before the given tail matcher. -/
def scanMiddle (tail : List Char → Bool) : List Char → Bool
  | [] => false
  | c :: rest => c ≠ '\n' && (tail rest || scanMiddle tail rest)

/-- Try every starting position for `application/vnd.` followed by the
middle group and the tail. -/
def scanVnd (tail : List Char → Bool) : List Char → Bool
  | [] => false
  | l@(_ :: rest) =>
    (listStartsWith l "application/vnd.".data && scanMiddle tail (l.drop 16)) ||
      scanVnd tail rest

/-- `CUSTOM_ERROR.test(s)`. -/
def customErrorTest (s : String) : Bool := scanVnd errorsTail s.data

/-- `CUSTOM_PROBLEM.test(s)`. -/
def customProblemTest (s : String) : Bool := scanVnd problemTail s.data

/-! ## Header remapping and composition (src/index.ts lines 82-107,
366-372) -/

/-- `isUpperCase` from src/index.ts: the first character equals its own
upper-casing.  Note that this is true for digits and punctuation, not
only for upper-case letters.  (On the empty key the source would throw;
the embedding is only used, and only claimed, for non-empty keys.) -/
def isUpperCase (value : String) : Bool :=
  match value.data with
  | [] => true
  | c :: _ => (if 'a' ≤ c && c ≤ 'z' then Char.ofNat (c.toNat - 32) else c) = c

/-- `header.replace(/[A-Z]/g, (m) => '-' + m.toLocaleLowerCase())`. -/
def kebabKey (k : String) : String :=
  String.mk (k.data.foldr
    (fun c acc =>
      if 'A' ≤ c && c ≤ 'Z' then '-' :: Char.ofNat (c.toNat + 32) :: acc else c :: acc)
    [])

/-- Assignment `o[k] = v` on a JavaScript object rendered as an
association list: an existing key keeps its position and gets the new
value, a new key is appended. -/
def objInsert : List (String × String) → String → String → List (String × String)
  | [], k, v => [(k, v)]
  | (k₀, v₀) :: rest, k, v =>
    if k₀ = k then (k₀, v) :: rest else (k₀, v₀) :: objInsert rest k v

/-- Property lookup on such an object. -/
def objLookup : List (String × String) → String → Option String
  | [], _ => none
  | (k₀, v₀) :: rest, k => if k₀ = k then some v₀ else objLookup rest k

/-- `remapHeaders` from src/index.ts: keys that start upper-case (in the
`isUpperCase` sense) or contain a hyphen pass verbatim, other keys have
every upper-case letter rewritten to a hyphen plus its lower case;
entries with a falsy (empty) value are dropped. -/
def remapHeaders (headers : List (String × String)) : List (String × String) :=
  headers.foldl
    (fun result kv =>
      let mapped :=
        if isUpperCase kv.1 || strIncludes kv.1 "-" then kv.1 else kebabKey kv.1
      if kv.2 ≠ "" then objInsert result mapped kv.2 else result)
    []

/-- The composed `accept` value
`[accept, AcceptRef.current].join(', ')`: the nested array stringifies
as its elements joined by bare commas. -/
def composedAccept (accept : String) (defaultAccept : List String) : String :=
  accept ++ ", " ++ String.intercalate "," defaultAccept

/-- The composed outgoing header object of fetchMediaWrapped:
defaults spread first, then the `accept` entry, then the remapped
per-call headers (later assignments win on key collision). -/
def composeHeaders (defaultHeaders : List (String × String)) (defaultAccept : List String)
    (accept : String) (otherHeaders : List (String × String)) : List (String × String) :=
  (remapHeaders otherHeaders).foldl
    (fun acc kv => objInsert acc kv.1 kv.2)
    (objInsert defaultHeaders "accept" (composedAccept accept defaultAccept))

/-! ## Request bodies and the body encoder (src/index.ts lines 548-558) -/

/-- The request body: a structured value, a FormData instance, or some
other transport-acceptable object (blob, buffer, stream). -/
inductive BodyVal where
  | jsv (j : Json)
  | formDataVal
  | blobLike (tag : String)

/-- JavaScript truthiness of a body (`if (body && ...)`): FormData and
blob-like objects are objects and hence truthy. -/
def BodyVal.truthy : BodyVal → Bool
  | .jsv j => jsonTruthy j
  | .formDataVal => true
  | .blobLike _ => true

/-- `body instanceof FormData`. -/
def BodyVal.isFormData : BodyVal → Bool
  | .formDataVal => true
  | _ => false

/-- `JSON.stringify` applied to a body (objects without enumerable own
properties, such as FormData or Blob instances, stringify as an empty
object). -/
def stringifyBody (gap : String) : BodyVal → String
  | .jsv j => jsonSer gap "" j
  | .formDataVal => "\x7b\x7d"
  | .blobLike _ => "\x7b\x7d"

/-- The result of `encodeBody`: the payload passed through unchanged, or
the JSON string produced for JSON media types. -/
inductive EncodedBody where
  | passthrough (b : BodyVal)
  | encoded (s : String)

/-- `encodeBody` from src/index.ts: undefined content-type passes the
payload through; a content-type containing `+json` or starting with
`application/json` serializes it (2-space indented when debug);
everything else passes through. -/
def encodeBody (data : BodyVal) (contentType : Option String) (debug : Bool) : EncodedBody :=
  match contentType with
  | none => .passthrough data
  | some ct =>
    if strIncludes ct MEDIA_JSON_SUFFIX || strStartsWith ct MEDIA_JSON then
      .encoded (stringifyBody (if debug then "  " else "") data)
    else .passthrough data

/-! ## Responses, the error taxonomy and the Media Response container -/

/-- The transport response object, with both body-drain results
pre-computed: `jsonBody = none` models a `.json()` call that throws a
parse error. -/
structure ResponseM where
  ok : Bool
  status : Nat
  statusText : String
  url : String
  contentType : Option String
  jsonBody : Option Json
  textBody : String

/-- A content-type header value read with `headers.get` is falsy when it
is absent (`null`) or the empty string. -/
def ctFalsy : Option String → Bool
  | none => true
  | some s => s = ""

/-- The closed error taxonomy.  Variants whose class computes its
message in the constructor from a JSON payload carry that computed
message. -/
inductive FetchMediaErr where
  | noRequestContentType (url : String)
  | noResponseContentType (url : String) (status : Nat) (statusText : String)
  | mediaTypeUnsupported (url : String) (status : Nat) (statusText : String)
      (accept : String) (contentType : String)
  | problem (msg : String) (data : Json)
  | structuredErrors (msg : String) (data : Json)
  | jsonError (msg : String) (data : Json)
  | textError (msg : String) (data : String)

/-- The wrapped result: a successfully decoded body value. -/
inductive DecodedValue where
  | jsonVal (j : Json)
  | textVal (s : String)
  | arrayBufferVal (bytes : String)
  | blobVal (bytes : String)
  | formDataVal
  | urlParamsVal (raw : String)

/-- `MediaResponse.result`: either a decoded value or an Error-Taxonomy
instance. -/
inductive MRResult where
  | value (v : DecodedValue)
  | error (e : FetchMediaErr)

/-- `result instanceof Error`: decoded bodies (parsed JSON, strings,
buffers, form data) are never Error instances, taxonomy members always
are. -/
def MRResult.instOfError : MRResult → Bool
  | .value _ => false
  | .error _ => true

/-- The MediaResponse container of src/MediaResponse.ts: the result
paired with the (possibly synthetic) response metadata it was
constructed with. -/
structure MediaResponseM where
  result : MRResult
  status : Nat
  statusText : String
  url : String

/-- `MediaResponse.ok`: `!(this.result instanceof Error)`. -/
def MediaResponseM.okM (r : MediaResponseM) : Bool :=
  !r.result.instOfError

/-- `MediaResponse.unwrap`: throw the result when it is an Error,
return it otherwise. -/
def MediaResponseM.unwrapM (r : MediaResponseM) : Except FetchMediaErr DecodedValue :=
  match r.result with
  | .error e => .error e
  | .value v => .ok v

/-- `MediaResponse.error err response` against a real or synthetic
response: the error wrapped with the response metadata. -/
def mkError (e : FetchMediaErr) (status : Nat) (statusText url : String) : MediaResponseM :=
  ⟨.error e, status, statusText, url⟩

/-- A successful decode wrapped with the response metadata. -/
def mkValue (v : DecodedValue) (resp : ResponseM) : MediaResponseM :=
  ⟨.value v, resp.status, resp.statusText, resp.url⟩

/-! ## Call options, transport results and outcomes -/

/-- The `handleBinary` option (`false` disables binary handling). -/
inductive BinMode where
  | arrayBufferMode
  | blobMode

/-- The per-call options of fetchMediaWrapped that the engine consults
(hooks and the abort signal have no observable effect on the result). -/
structure MediaOptionsM where
  accept : String
  otherHeaders : List (String × String)
  body : Option BodyVal
  debug : Bool
  disableJson : Bool
  disableText : Bool
  disableFormData : Bool
  disableFormUrlEncoded : Bool
  handleBinary : Option BinMode

/-- The process-wide defaults read at header-composition time. -/
structure Defaults where
  accept : List String
  headers : List (String × String)

/-- What the one `await localFetch(...)` produced: a resolved response,
a rejection with an Error (network failure, abort), or resolution with a
value that is neither an Error nor response-like. -/
inductive TransportResult where
  | success (r : ResponseM)
  | failure (msg : String)
  | weird (desc : String)

/-- How the promise returned by fetchMediaWrapped settles. -/
inductive RejectKind where
  | transportError (msg : String)
  | thrownError (e : FetchMediaErr)
  | syntaxError
  | typeError
  | unknownValue (desc : String)

/-- fetchMediaWrapped either resolves with a MediaResponse or rejects. -/
inductive Outcome where
  | wrapped (r : MediaResponseM)
  | reject (k : RejectKind)

/-! ## The failure-classification branch (src/index.ts lines 452-539) -/

/-- The expected-accept string used when the error response has no
content-type. -/
def expectNoCt : String :=
  "application/vnd.<vendor>.errors[.v<version>]+json, " ++ ACCEPT_PROBLEM

/-- The expected-accept string used when the error content-type matches
no classification rule. -/
def expectUnsupported : String :=
  "application/vnd.<vendor>.errors[.v<version>]+json, " ++
    "application/vnd.<vendor>.problem+json, " ++ ACCEPT_PROBLEM

/-- The coercion test of src/index.ts lines 502-510: the parsed body is
a non-null object owning an `errors` array that is empty or whose FIRST
element is a non-null object owning a `message` property. -/
def coercibleToStructured : Json → Bool
  | .obj fields =>
    match jsonGet (.obj fields) "errors" with
    | some (.arr xs) =>
      match xs with
      | [] => true
      | e :: _ =>
        match e with
        | .obj efields => (jsonGet (.obj efields) "message").isSome
        | _ => false
    | _ => false
  | _ => false

/-- The string value a falsy `headers.get('content-type')` result feeds
into the constructors (a `null` read renders as the empty string). -/
def respCtStr : Option String → String
  | none => ""
  | some s => s

/-- The catch-block classification of a thrown (non-ok) response.
`url` is the request URL, used by the MediaTypeUnsupported constructor.
A body-parse failure (`jsonBody = none`) and a throwing getError both
escape the catch block as rejections. -/
def classifyFail (url : String) (resp : ResponseM) : Outcome :=
  if ctFalsy resp.contentType then
    .wrapped (mkError
      (.mediaTypeUnsupported url resp.status resp.statusText expectNoCt
        (respCtStr resp.contentType))
      resp.status resp.statusText resp.url)
  else if strStartsWith (respCtStr resp.contentType) MEDIA_PROBLEM ||
      customProblemTest (respCtStr resp.contentType) then
    match resp.jsonBody with
    | none => .reject .syntaxError
    | some data =>
      match problemMessage data with
      | none => .reject .typeError
      | some m => .wrapped (mkError (.problem m data) resp.status resp.statusText resp.url)
  else if customErrorTest (respCtStr resp.contentType) then
    match resp.jsonBody with
    | none => .reject .syntaxError
    | some data =>
      match structuredMessage data with
      | none => .reject .typeError
      | some m =>
        .wrapped (mkError (.structuredErrors m data) resp.status resp.statusText resp.url)
  else if strStartsWith (respCtStr resp.contentType) MEDIA_JSON then
    match resp.jsonBody with
    | none => .reject .syntaxError
    | some data =>
      if coercibleToStructured data then
        match structuredMessage data with
        | none => .reject .typeError
        | some m =>
          .wrapped (mkError (.structuredErrors m data) resp.status resp.statusText resp.url)
      else
        match jsonErrorMessage data with
        | none => .reject .typeError
        | some m =>
          .wrapped (mkError (.jsonError m data) resp.status resp.statusText resp.url)
  else if strStartsWith (respCtStr resp.contentType) MEDIA_TEXT_GROUP then
    .wrapped (mkError
      (.textError (textErrorMessage resp.status resp.url resp.textBody) resp.textBody)
      resp.status resp.statusText resp.url)
  else
    .wrapped (mkError
      (.mediaTypeUnsupported url resp.status resp.statusText expectUnsupported
        (respCtStr resp.contentType))
      resp.status resp.statusText resp.url)

/-! ## The success path and the full per-response classification
(src/index.ts lines 390-446) -/

/-- Classification of the transport's resolved response: the non-ok or
status-400-and-up path raises the response internally and classifies it;
the success path walks the ordered decoding rule table and, when nothing
matches, throws a MediaTypeUnsupported, which by the catch block's
`instanceof Error` test becomes a rejection. -/
def classify (url : String) (o : MediaOptionsM) (resp : ResponseM) : Outcome :=
  if !resp.ok || decide (400 ≤ resp.status) then classifyFail url resp
  else if ctFalsy resp.contentType then
    .wrapped (mkError (.noResponseContentType url resp.status resp.statusText)
      resp.status resp.statusText resp.url)
  else
    if (!o.disableJson && strIncludes (respCtStr resp.contentType) MEDIA_JSON_SUFFIX) ||
        strStartsWith (respCtStr resp.contentType) MEDIA_JSON then
      match resp.jsonBody with
      | none => .reject .syntaxError
      | some j => .wrapped (mkValue (.jsonVal j) resp)
    else if !o.disableText && strStartsWith (respCtStr resp.contentType) MEDIA_TEXT_GROUP then
      .wrapped (mkValue (.textVal resp.textBody) resp)
    else if o.handleBinary.isSome &&
        (strStartsWith (respCtStr resp.contentType) MEDIA_IMAGE_GROUP ||
          strStartsWith (respCtStr resp.contentType) MEDIA_AUDIO_GROUP ||
          strStartsWith (respCtStr resp.contentType) MEDIA_VIDEO_GROUP ||
          strStartsWith (respCtStr resp.contentType) MEDIA_GENERIC_BIN) then
      match o.handleBinary with
      | some .arrayBufferMode => .wrapped (mkValue (.arrayBufferVal resp.textBody) resp)
      | _ => .wrapped (mkValue (.blobVal resp.textBody) resp)
    else if !o.disableFormData && strStartsWith (respCtStr resp.contentType) MEDIA_FORM_DATA then
      .wrapped (mkValue .formDataVal resp)
    else if !o.disableFormUrlEncoded &&
        strStartsWith (respCtStr resp.contentType) MEDIA_FORM_URL_ENCODED then
      .wrapped (mkValue (.urlParamsVal resp.textBody) resp)
    else
      .reject (.thrownError
        (.mediaTypeUnsupported url resp.status resp.statusText o.accept
          (respCtStr resp.contentType)))

/-! ## Pre-transport phase and the whole call
(src/index.ts lines 340-388, 447-545) -/

/-- What happens before the transport: either a short-circuit return
(no network call at all) or a send with the composed headers, resolved
content-type and encoded body. -/
inductive Preflight where
  | shortCircuit (out : Outcome)
  | send (headers : List (String × String)) (contentType : Option String)
      (encodedBody : Option EncodedBody)

/-- Header composition, content-type resolution, body encoding and the
missing-content-type guard of fetchMediaWrapped.  The guard tests the
TRUTHINESS of the body, so a falsy body (empty string, zero) skips it.
The synthetic `new Response(undefined, status 400)` has empty statusText
and URL. -/
def composedCt (d : Defaults) (o : MediaOptionsM) : Option String :=
  objLookup (composeHeaders d.headers d.accept o.accept o.otherHeaders) "content-type"

/-- JavaScript truthiness of the optional body (`body &&` is false for a
missing body). -/
def bodyTruthy : Option BodyVal → Bool
  | none => false
  | some b => b.truthy

/-- `body instanceof FormData` on the optional body. -/
def bodyIsForm : Option BodyVal → Bool
  | none => false
  | some b => b.isFormData

def preflight (d : Defaults) (url : String) (o : MediaOptionsM) : Preflight :=
  if bodyTruthy o.body && ctFalsy (composedCt d o) && !bodyIsForm o.body then
    .shortCircuit (.wrapped (mkError (.noRequestContentType url) 400 "" ""))
  else
    .send (composeHeaders d.headers d.accept o.accept o.otherHeaders) (composedCt d o)
      (o.body.map (fun b => encodeBody b (composedCt d o) o.debug))

/-- fetchMediaWrapped as a function of the process-wide defaults, the
URL, the options and the result of the (at most one) transport call. -/
def fetchMediaWrapped (d : Defaults) (url : String) (o : MediaOptionsM)
    (tr : TransportResult) : Outcome :=
  match preflight d url o with
  | .shortCircuit out => out
  | .send _ _ _ =>
    match tr with
    | .failure msg => .reject (.transportError msg)
    | .weird desc =>
      .reject (.unknownValue
        ("Unknown issue occurred. Not an Error or Response, but " ++ desc))
    | .success resp => classify url o resp

/-- How a fetchMedia call settles: a plain value, a thrown taxonomy
error, or the propagated rejection. -/
inductive CallResult where
  | value (v : DecodedValue)
  | thrown (e : FetchMediaErr)
  | rejected (k : RejectKind)

/-- `result.unwrap()` applied to an outcome. -/
def unwrapOutcome : Outcome → CallResult
  | .wrapped r =>
    match r.unwrapM with
    | .ok v => .value v
    | .error e => .thrown e
  | .reject k => .rejected k

/-- The convenience entry point fetchMedia:
`(await fetchMediaWrapped(url, options)).unwrap()`. -/
def fetchMedia (d : Defaults) (url : String) (o : MediaOptionsM)
    (tr : TransportResult) : CallResult :=
  unwrapOutcome (fetchMediaWrapped d url o tr)

/-! ## Sample inputs used by the concrete theorems -/

/-- The initial process-wide defaults (`AcceptRef`, `HeadersRef`). -/
def defaultsInit : Defaults := ⟨[ACCEPT_PROBLEM], []⟩

/-- A plain GET call accepting text/html, nothing disabled. -/
def optsBase : MediaOptionsM :=
  ⟨"text/html", [], none, false, false, false, false, false, none⟩

/-- The same call with `disableJson: true`. -/
def optsDisableJson : MediaOptionsM :=
  ⟨"text/html", [], none, false, true, false, false, false, none⟩

/-- A successful JSON response with body `\x7b"a":1\x7d`. -/
def respJson200 : ResponseM :=
  ⟨true, 200, "OK", "https://example.org/a", some "application/json",
    some (.obj [("a", .num 1)]), "\x7b\x22a\x22:1\x7d"⟩

/-- A successful response whose content-type matches no decoding rule. -/
def respPdf200 : ResponseM :=
  ⟨true, 200, "OK", "https://example.org/pdf", some "application/pdf", none, ""⟩

/-- A 404 problem document with body `\x7b"detail":"not found"\x7d`. -/
def respProblem404 : ResponseM :=
  ⟨false, 404, "Not Found", "https://example.org/p", some "application/problem+json",
    some (.obj [("detail", .str "not found")]), ""⟩

/-- The generic-JSON error body whose first `errors` element has a
`message` but whose second does not. -/
def dataFirstOnly : Json :=
  .obj [("errors", .arr [.obj [("message", .str "a")], .obj []])]

/-- A 500 `application/json` error response carrying `dataFirstOnly`. -/
def respJson500 : ResponseM :=
  ⟨false, 500, "Internal Server Error", "https://example.org/e", some "application/json",
    some dataFirstOnly, ""⟩

/-- A 500 `application/json` error response with body
`\x7b"errors":[]\x7d`. -/
def respJson500Empty : ResponseM :=
  ⟨false, 500, "Internal Server Error", "https://example.org/e2", some "application/json",
    some (.obj [("errors", .arr [])]), ""⟩

/-- The 422 vendor structured-error response of the specification. -/
def respVendor422 : ResponseM :=
  ⟨false, 422, "Unprocessable Entity", "https://example.org/v",
    some "application/vnd.acme.errors.v1+json",
    some (.obj [("errors", .arr [.obj [("message", .str "bad")],
      .obj [("message", .str "worse")]])]), ""⟩

/-! ## Claim theorems -/

/-- A non-ok response, or one with status 400 and up, is thrown
internally and lands in the failure classifier. -/
theorem classify_failPath (url : String) (o : MediaOptionsM) (resp : ResponseM)
    (hfail : (!resp.ok || decide (400 ≤ resp.status)) = true) :
    classify url o resp = classifyFail url resp := by
  unfold classify
  rw [hfail]
  simp

/-- Claim C2: for every constructed MediaResponse, ok() is true exactly
when the wrapped result is not an Error-Taxonomy instance; unwrap()
returns the result exactly when ok() holds and raises the wrapped error
exactly when it does not; and fetchMedia yields the unwrapped value of
fetchMediaWrapped when ok, and raises the wrapped taxonomy error
otherwise. -/
theorem c2_ok_unwrap_fetchMedia :
    (∀ r : MediaResponseM,
      (r.okM = true ↔ ¬ ∃ e, r.result = .error e) ∧
      (∀ v, r.result = .value v → r.okM = true ∧ r.unwrapM = .ok v) ∧
      (∀ e, r.result = .error e → r.okM = false ∧ r.unwrapM = .error e)) ∧
    (∀ d url o tr r, fetchMediaWrapped d url o tr = .wrapped r →
      (∀ v, r.result = .value v → fetchMedia d url o tr = .value v) ∧
      (∀ e, r.result = .error e → fetchMedia d url o tr = .thrown e)) := by
  constructor
  · intro r
    refine ⟨?_, ?_, ?_⟩
    · cases hr : r.result <;>
        simp [MediaResponseM.okM, MRResult.instOfError, hr]
    · intro v hv
      simp [MediaResponseM.okM, MRResult.instOfError, MediaResponseM.unwrapM, hv]
    · intro e he
      simp [MediaResponseM.okM, MRResult.instOfError, MediaResponseM.unwrapM, he]
  · intro d url o tr r h
    constructor
    · intro v hv
      simp [fetchMedia, unwrapOutcome, h, MediaResponseM.unwrapM, hv]
    · intro e he
      simp [fetchMedia, unwrapOutcome, h, MediaResponseM.unwrapM, he]

/-- Witness for C2 at a concrete successful JSON call. -/
theorem c2_witness :
    fetchMedia defaultsInit "https://example.org/a" optsBase (.success respJson200) =
      .value (.jsonVal (.obj [("a", .num 1)])) := by
  have h := c2_ok_unwrap_fetchMedia.2 defaultsInit "https://example.org/a" optsBase
    (.success respJson200) ⟨.value (.jsonVal (.obj [("a", .num 1)])), 200, "OK",
      "https://example.org/a"⟩ rfl
  exact h.1 _ rfl

/-- Claim C3 (code bug): with `disableJson: true` the JSON rule still
matches a successful response whose content-type starts with
`application/json`, because the guard is
`(!disableJson && includes) || startsWith`: the body IS decoded as JSON
instead of falling through to the later rules. -/
theorem c3_code_eval :
    optsDisableJson.disableJson = true ∧
    fetchMediaWrapped defaultsInit "https://example.org/a" optsDisableJson
        (.success respJson200) =
      .wrapped ⟨.value (.jsonVal (.obj [("a", .num 1)])), 200, "OK",
        "https://example.org/a"⟩ :=
  ⟨rfl, rfl⟩

/-- Claim C5: a truthy non-FormData body with no resolvable content-type
short-circuits to a NoRequestContentType error wrapped over a synthetic
400 response, and the transport result never influences the outcome. -/
theorem c5_no_request_content_type (d : Defaults) (url : String) (o : MediaOptionsM)
    (b : BodyVal) (hb : o.body = some b) (ht : b.truthy = true) (hf : b.isFormData = false)
    (hct : objLookup (composeHeaders d.headers d.accept o.accept o.otherHeaders)
      "content-type" = none) :
    preflight d url o =
      .shortCircuit (.wrapped (mkError (.noRequestContentType url) 400 "" "")) ∧
    ∀ tr, fetchMediaWrapped d url o tr =
      .wrapped (mkError (.noRequestContentType url) 400 "" "") := by
  have hpre : preflight d url o =
      .shortCircuit (.wrapped (mkError (.noRequestContentType url) 400 "" "")) := by
    unfold preflight
    simp [composedCt, bodyTruthy, bodyIsForm, hb, ht, hf, hct, ctFalsy]
  exact ⟨hpre, fun tr => by unfold fetchMediaWrapped; rw [hpre]⟩

/-- Witness for C5: a truthy string body, no content-type anywhere; even
a transport that would fail cannot influence the outcome. -/
theorem c5_witness :
    fetchMediaWrapped defaultsInit "https://example.org/w"
        ⟨"text/html", [], some (.jsv (.str "hello")), false, false, false, false, false, none⟩
        (.failure "network down") =
      .wrapped (mkError (.noRequestContentType "https://example.org/w") 400 "" "") :=
  (c5_no_request_content_type defaultsInit "https://example.org/w"
    ⟨"text/html", [], some (.jsv (.str "hello")), false, false, false, false, false, none⟩
    (.jsv (.str "hello")) rfl rfl rfl rfl).2 (.failure "network down")

/-- Claim C10 (implicit): a falsy but present body (empty string, zero)
with no composed content-type skips the missing-content-type guard
entirely: no NoRequestContentType is produced and the transport is
invoked with the body passed through unchanged. -/
theorem c10_falsy_body_skips_guard (d : Defaults) (url : String) (o : MediaOptionsM)
    (b : BodyVal) (hb : o.body = some b) (ht : b.truthy = false)
    (hct : objLookup (composeHeaders d.headers d.accept o.accept o.otherHeaders)
      "content-type" = none) :
    preflight d url o =
      .send (composeHeaders d.headers d.accept o.accept o.otherHeaders) none
        (some (.passthrough b)) ∧
    ∀ resp, fetchMediaWrapped d url o (.success resp) = classify url o resp := by
  have hpre : preflight d url o =
      .send (composeHeaders d.headers d.accept o.accept o.otherHeaders) none
        (some (.passthrough b)) := by
    unfold preflight
    simp [composedCt, bodyTruthy, bodyIsForm, hb, ht, hct, encodeBody]
  exact ⟨hpre, fun resp => by unfold fetchMediaWrapped; rw [hpre]⟩

/-- Witness for C10 at the empty-string body. -/
theorem c10_witness :
    preflight defaultsInit "https://example.org/w2"
        ⟨"text/html", [], some (.jsv (.str "")), false, false, false, false, false, none⟩ =
      .send (composeHeaders [] [ACCEPT_PROBLEM] "text/html" []) none
        (some (.passthrough (.jsv (.str "")))) :=
  (c10_falsy_body_skips_guard defaultsInit "https://example.org/w2"
    ⟨"text/html", [], some (.jsv (.str "")), false, false, false, false, false, none⟩
    (.jsv (.str "")) rfl rfl rfl).1

/-- Counterexample to claim C9: `application/hal+json; charset=utf-8`
neither ends in `+json` nor starts with `application/json`, so the claim
says the payload passes through unchanged, but the encoder (which tests
CONTAINMENT of `+json`) serializes it. -/
theorem c9_counterexample :
    strEndsWith "application/hal+json; charset=utf-8" "+json" = false ∧
    strStartsWith "application/hal+json; charset=utf-8" MEDIA_JSON = false ∧
    encodeBody (.jsv (.str "hi")) (some "application/hal+json; charset=utf-8") false =
      .encoded "\x22hi\x22" :=
  ⟨rfl, rfl, rfl⟩

/-- Claim C9 as amended: the encoder passes the payload through when the
content-type is undefined, serializes it as JSON (2-space indented when
debug is active, compact otherwise) when the content-type CONTAINS
`+json` or starts with `application/json`, and passes it through
otherwise. -/
theorem c9_amended_encode (b : BodyVal) (ct : String) (debug : Bool) :
    encodeBody b none debug = .passthrough b ∧
    ((strIncludes ct MEDIA_JSON_SUFFIX || strStartsWith ct MEDIA_JSON) = true →
      encodeBody b (some ct) debug =
        .encoded (stringifyBody (if debug then "  " else "") b)) ∧
    ((strIncludes ct MEDIA_JSON_SUFFIX || strStartsWith ct MEDIA_JSON) = false →
      encodeBody b (some ct) debug = .passthrough b) := by
  refine ⟨rfl, ?_, ?_⟩ <;> intro h <;> simp [encodeBody, h]

/-- Witness for C9 (amended) at a JSON content-type and at text/plain. -/
theorem c9_witness :
    encodeBody (.jsv (.obj [("a", .num 1)])) (some "application/json") false =
      .encoded "\x7b\x22a\x22:1\x7d" ∧
    encodeBody (.jsv (.str "hi")) (some "text/plain") false =
      .passthrough (.jsv (.str "hi")) :=
  ⟨(c9_amended_encode (.jsv (.obj [("a", .num 1)])) "application/json" false).2.1 rfl,
    (c9_amended_encode (.jsv (.str "hi")) "text/plain" false).2.2 rfl⟩

/-- The specification's phrasing for C7: the key starts with an
upper-case LETTER.  Modelled from the spec's words, for comparison with
the source's `isUpperCase`. -/
def specStartsUpperLetter (s : String) : Bool :=
  match s.data with
  | [] => false
  | c :: _ => 'A' ≤ c && c ≤ 'Z'

/-- Counterexample to claim C7: the key `1fooBar` neither contains a
hyphen nor starts with an upper-case letter, so the claim says its
embedded upper-case letters are rewritten (`1foo-bar`), but the source's
`isUpperCase` test is satisfied by the digit `1` (a digit equals its own
upper-casing) and the key passes through unchanged. -/
theorem c7_counterexample :
    specStartsUpperLetter "1fooBar" = false ∧
    strIncludes "1fooBar" "-" = false ∧
    kebabKey "1fooBar" = "1foo-bar" ∧
    remapHeaders [("1fooBar", "x")] = [("1fooBar", "x")] :=
  ⟨rfl, rfl, rfl, rfl⟩

/-- Claim C7 as amended: a key passes through unchanged when it contains
a hyphen or its FIRST CHARACTER equals its own upper-casing (upper-case
letters, digits, punctuation); only keys starting with a lower-case
letter have each embedded upper-case letter rewritten to a hyphen plus
its lower case; headers with a falsy (empty) value are dropped.  (The
source would throw on an empty key, so only non-empty keys are
claimed.) -/
theorem c7_amended_remap (k v : String) (hk : k ≠ "") :
    (v = "" → remapHeaders [(k, v)] = []) ∧
    (v ≠ "" → (isUpperCase k || strIncludes k "-") = true →
      remapHeaders [(k, v)] = [(k, v)]) ∧
    (v ≠ "" → (isUpperCase k || strIncludes k "-") = false →
      remapHeaders [(k, v)] = [(kebabKey k, v)]) := by
  refine ⟨?_, ?_, ?_⟩
  · intro hv; simp [remapHeaders, hv]
  · intro hv h
    simp only [remapHeaders, List.foldl, ne_eq, hv, not_false_iff, if_true]
    rw [if_pos h]
    rfl
  · intro hv h
    simp only [remapHeaders, List.foldl, ne_eq, hv, not_false_iff, if_true]
    rw [if_neg (by simp [h])]
    rfl

/-- Witness for C7 (amended): `contentType` becomes `content-type`,
`Accept` passes unchanged, an empty `etag` value is dropped. -/
theorem c7_witness :
    remapHeaders [("contentType", "application/json")] =
      [("content-type", "application/json")] ∧
    remapHeaders [("Accept", "text/html")] = [("Accept", "text/html")] ∧
    remapHeaders [("etag", "")] = [] := by
  refine ⟨?_, ?_, ?_⟩
  · have h := (c7_amended_remap "contentType" "application/json" (by decide)).2.2
      (by decide) rfl
    exact h
  · exact (c7_amended_remap "Accept" "text/html" (by decide)).2.1 (by decide) rfl
  · exact (c7_amended_remap "etag" "" (by decide)).1 rfl

/-- Counterexample to claim C4: the 404 problem document with body
`\x7b"detail":"not found"\x7d` is classified as a Problem whose message
is `[data.title, data.detail].join('\n')`, i.e. a newline followed by
`not found`, not the bare `detail` field. -/
theorem c4_counterexample :
    fetchMediaWrapped defaultsInit "https://example.org/p" optsBase
        (.success respProblem404) =
      .wrapped (mkError (.problem "\nnot found" (.obj [("detail", .str "not found")]))
        404 "Not Found" "https://example.org/p") ∧
    "\nnot found" ≠ "not found" :=
  ⟨rfl, by decide⟩

/-- Claim C4 as amended: a failed response whose content-type starts
with `application/problem+json` or matches the vendor problem pattern
has its JSON object body classified as a Problem whose message is the
`title` and `detail` fields joined by a newline (absent fields render
empty); the 404 example therefore yields the message
`"\nnot found"`. -/
theorem c4_amended_problem_join (url : String) (o : MediaOptionsM) (resp : ResponseM)
    (s : String) (fields : List (String × Json))
    (hfail : (!resp.ok || decide (400 ≤ resp.status)) = true)
    (hct : resp.contentType = some s) (hne : s ≠ "")
    (hmatch : (strStartsWith s MEDIA_PROBLEM || customProblemTest s) = true)
    (hbody : resp.jsonBody = some (.obj fields)) :
    classify url o resp =
      .wrapped (mkError
        (.problem (jsJoinElem (jsonGet (.obj fields) "title") ++ "\n" ++
          jsJoinElem (jsonGet (.obj fields) "detail")) (.obj fields))
        resp.status resp.statusText resp.url) := by
  rw [classify_failPath url o resp hfail]
  unfold classifyFail
  rw [hct]
  simp [ctFalsy, respCtStr, hne, hmatch, hbody, problemMessage]

/-- Witness for C4 (amended) at the 404 example. -/
theorem c4_witness :
    classify "https://example.org/p" optsBase respProblem404 =
      .wrapped (mkError (.problem "\nnot found" (.obj [("detail", .str "not found")]))
        404 "Not Found" "https://example.org/p") := by
  have h := c4_amended_problem_join "https://example.org/p" optsBase respProblem404
    "application/problem+json" [("detail", .str "not found")] rfl rfl (by decide) rfl rfl
  exact h

/-- The specification's phrasing for C6: every element of the `errors`
array has a `message` field.  Modelled from the spec's words, for
comparison with the source's first-element-only test. -/
def specAllErrorsHaveMessage : Json → Bool
  | .obj fields =>
    match jsonGet (.obj fields) "errors" with
    | some (.arr xs) =>
      xs.all fun e =>
        match e with
        | .obj efields => (jsonGet (.obj efields) "message").isSome
        | _ => false
    | _ => false
  | _ => false

/-- Counterexample to claim C6: the body whose first `errors` element
has a `message` but whose second does not is NOT an object in which
every element has a `message` field, yet the classifier (which only
inspects element 0) reclassifies it as StructuredErrors (with message
`"a, "`), where the claim demands JsonError. -/
theorem c6_counterexample :
    specAllErrorsHaveMessage dataFirstOnly = false ∧
    fetchMediaWrapped defaultsInit "https://example.org/e" optsBase (.success respJson500) =
      .wrapped (mkError (.structuredErrors "a, " dataFirstOnly)
        500 "Internal Server Error" "https://example.org/e") :=
  ⟨rfl, rfl⟩

/-- Claim C6 as amended: for a failed `application/json` response
(matching neither problem nor vendor-error patterns) the decoded body is
reclassified as StructuredErrors exactly when it is a non-null object
owning an `errors` array that is empty or whose FIRST element is a
non-null object owning a `message` field (later elements are not
inspected), and as JsonError otherwise; message construction that
throws (a null element, a null body) escapes as a rejection. -/
theorem c6_amended_first_element_only (url : String) (o : MediaOptionsM) (resp : ResponseM)
    (s : String) (data : Json)
    (hfail : (!resp.ok || decide (400 ≤ resp.status)) = true)
    (hct : resp.contentType = some s) (hne : s ≠ "")
    (hnp : (strStartsWith s MEDIA_PROBLEM || customProblemTest s) = false)
    (hnc : customErrorTest s = false)
    (hjson : strStartsWith s MEDIA_JSON = true)
    (hbody : resp.jsonBody = some data) :
    (coercibleToStructured data = true →
      classify url o resp =
        match structuredMessage data with
        | none => .reject .typeError
        | some m =>
          .wrapped (mkError (.structuredErrors m data) resp.status resp.statusText resp.url)) ∧
    (coercibleToStructured data = false →
      classify url o resp =
        match jsonErrorMessage data with
        | none => .reject .typeError
        | some m =>
          .wrapped (mkError (.jsonError m data) resp.status resp.statusText resp.url)) := by
  constructor <;> intro hco <;> rw [classify_failPath url o resp hfail] <;>
    unfold classifyFail <;> rw [hct] <;>
    simp [ctFalsy, respCtStr, hne, hnp, hnc, hjson, hbody, hco]

/-- Witness for C6 (amended): the empty `errors` array is reclassified
as StructuredErrors with the empty message. -/
theorem c6_witness :
    classify "https://example.org/e2" optsBase respJson500Empty =
      .wrapped (mkError (.structuredErrors "" (.obj [("errors", .arr [])]))
        500 "Internal Server Error" "https://example.org/e2") := by
  have h := (c6_amended_first_element_only "https://example.org/e2" optsBase respJson500Empty
    "application/json" (.obj [("errors", .arr [])]) rfl rfl (by decide) (by decide)
    (by decide) rfl rfl).1 rfl
  exact h

/-- The `errors` array built from a list of message strings. -/
def errorsBody (msgs : List String) : Json :=
  .obj [("errors", .arr (msgs.map fun m => .obj [("message", .str m)]))]

/-- `StructuredErrors.getError` on a well-formed `errors` array is the
comma-space join of the message strings. -/
theorem structuredMessage_errorsBody (msgs : List String) :
    structuredMessage (errorsBody msgs) = some (String.intercalate ", " msgs) := by
  have helems : ∀ l : List String,
      structuredElems (l.map fun m => .obj [("message", .str m)]) = some l := by
    intro l
    induction l with
    | nil => rfl
    | cons m rest ih =>
      simp [structuredElems, ih, jsJoinElem, jsonGet, jsonGet.lookupField, jsToString]
  simp [structuredMessage, errorsBody, jsonGet, jsonGet.lookupField, helems]

/-- Claim C8: a failed response whose content-type matches the vendor
structured-error pattern `application/vnd.<name>.errors.v<N>+json`
(version at least 1; the ordered rule table has already excluded the
problem patterns) has its JSON body decoded into a StructuredErrors
whose message is the comma-space join of the `message` fields of the
body's `errors` array. -/
theorem c8_structured_errors (url : String) (o : MediaOptionsM) (resp : ResponseM)
    (s : String) (msgs : List String)
    (hfail : (!resp.ok || decide (400 ≤ resp.status)) = true)
    (hct : resp.contentType = some s) (hne : s ≠ "")
    (hnp : (strStartsWith s MEDIA_PROBLEM || customProblemTest s) = false)
    (hc : customErrorTest s = true)
    (hbody : resp.jsonBody = some (errorsBody msgs)) :
    classify url o resp =
      .wrapped (mkError (.structuredErrors (String.intercalate ", " msgs) (errorsBody msgs))
        resp.status resp.statusText resp.url) := by
  rw [classify_failPath url o resp hfail]
  unfold classifyFail
  rw [hct]
  simp [ctFalsy, respCtStr, hne, hnp, hc, hbody, structuredMessage_errorsBody]

/-- Witness for C8 at the 422 acme example: message `"bad, worse"`. -/
theorem c8_witness :
    classify "https://example.org/v" optsBase respVendor422 =
      .wrapped (mkError
        (.structuredErrors "bad, worse" (errorsBody ["bad", "worse"]))
        422 "Unprocessable Entity" "https://example.org/v") := by
  have h := c8_structured_errors "https://example.org/v" optsBase respVendor422
    "application/vnd.acme.errors.v1+json" ["bad", "worse"] rfl rfl (by decide)
    (by decide) (by decide) rfl
  exact h

/-- The failure classifier never produces the thrown-taxonomy rejection:
all its rejections are body-read exceptions (parse or extraction
throws). -/
theorem classifyFail_no_thrownError (url : String) (resp : ResponseM) (e : FetchMediaErr) :
    classifyFail url resp ≠ .reject (.thrownError e) := by
  intro h
  unfold classifyFail at h
  repeat' split at h
  all_goals simp_all [ctFalsy]

/-- Counterexample to claim C1: a successful (200) response whose
content-type `application/pdf` matches no decoding rule makes
fetchMediaWrapped REJECT with the thrown MediaTypeUnsupported (the catch
block forwards every thrown Error instance as a rejection), instead of
returning a MediaResponse wrapping it. -/
theorem c1_counterexample :
    fetchMediaWrapped defaultsInit "https://example.org/pdf" optsBase (.success respPdf200) =
      .reject (.thrownError (.mediaTypeUnsupported "https://example.org/pdf" 200 "OK"
        "text/html" "application/pdf")) :=
  rfl

/-- A preflight short-circuit can only be the wrapped
NoRequestContentType over the synthetic 400 response. -/
theorem preflight_shortCircuit_eq (d : Defaults) (url : String) (o : MediaOptionsM)
    (out : Outcome) (hpre : preflight d url o = .shortCircuit out) :
    out = .wrapped (mkError (.noRequestContentType url) 400 "" "") := by
  unfold preflight at hpre
  repeat' split at hpre
  all_goals simp_all

/-- If the classifier rejects with a taxonomy error, the response was
successful and the error is the MediaTypeUnsupported of the unmatched
content-type. -/
theorem classify_thrownError (url : String) (o : MediaOptionsM) (resp : ResponseM)
    (e : FetchMediaErr) (h : classify url o resp = .reject (.thrownError e)) :
    resp.ok = true ∧ resp.status < 400 ∧ ∃ s, resp.contentType = some s ∧
      e = .mediaTypeUnsupported url resp.status resp.statusText o.accept s := by
  unfold classify at h
  split at h
  · exact absurd h (classifyFail_no_thrownError url resp e)
  · next hok =>
    have hok1 : resp.ok = true := by
      by_contra hco
      simp only [Bool.not_eq_true] at hco
      exact hok (by simp [hco])
    have hok2 : resp.status < 400 := by
      by_contra hco
      simp only [Nat.not_lt] at hco
      exact hok (by simp [Nat.le_of_lt_succ, hco])
    refine ⟨hok1, hok2, ?_⟩
    split at h
    · simp_all
    · next hctf =>
      cases hct : resp.contentType with
      | none => rw [hct] at hctf; simp [ctFalsy] at hctf
      | some s =>
        refine ⟨s, rfl, ?_⟩
        rw [hct] at h
        repeat' split at h
        all_goals simp_all [respCtStr]

/-- Claim C1 as amended: every classification outcome is returned as a
MediaResponse wrapping the error, EXCEPT the MediaTypeUnsupported raised
for a successful response whose content-type matches no enabled decoding
rule, which propagates as a rejection: whenever fetchMediaWrapped
rejects with a taxonomy error, that error is exactly such a
MediaTypeUnsupported (built from the call URL, the successful
response's metadata and content-type, and the per-call accept value);
all other rejections are genuine transport or body-read exceptions or
the generic diagnostic for unrecognized thrown values. -/
theorem c1_amended_rejected_taxonomy_is_success_mtu (d : Defaults) (url : String)
    (o : MediaOptionsM) (tr : TransportResult) (e : FetchMediaErr)
    (h : fetchMediaWrapped d url o tr = .reject (.thrownError e)) :
    ∃ resp s, tr = .success resp ∧ resp.ok = true ∧ resp.status < 400 ∧
      resp.contentType = some s ∧
      e = .mediaTypeUnsupported url resp.status resp.statusText o.accept s := by
  unfold fetchMediaWrapped at h
  split at h
  · next out hpre =>
    rw [preflight_shortCircuit_eq d url o out hpre] at h
    exact absurd h (by simp)
  · cases tr with
    | failure msg => exact absurd h (by simp)
    | weird desc => exact absurd h (by simp)
    | success resp =>
      obtain ⟨hok1, hok2, s, hct, he⟩ := classify_thrownError url o resp e h
      exact ⟨resp, s, rfl, hok1, hok2, hct, he⟩

/-- Witness for C1 (amended) at the concrete rejected 200/pdf call. -/
theorem c1_witness :
    ∃ resp s, TransportResult.success respPdf200 = .success resp ∧ resp.ok = true ∧
      resp.status < 400 ∧ resp.contentType = some s ∧
      FetchMediaErr.mediaTypeUnsupported "https://example.org/pdf" 200 "OK"
          "text/html" "application/pdf" =
        .mediaTypeUnsupported "https://example.org/pdf" resp.status resp.statusText
          optsBase.accept s :=
  c1_amended_rejected_taxonomy_is_success_mtu defaultsInit "https://example.org/pdf"
    optsBase (.success respPdf200)
    (.mediaTypeUnsupported "https://example.org/pdf" 200 "OK" "text/html" "application/pdf")
    rfl

end FetchMedia
